import Mathlib

/-!
# Verification of the pythonLearning demo repository

A shallow embedding, in Lean 4, of the parts of the repository that the
specification's claims are about.  Python floats that only ever hold exact
decimal values are modelled as rationals (`ℚ`), Python exceptions as an
inductive type `PyExc` together with a subclass relation `instanceOf`
mirroring Python's exception hierarchy, and fallible code as
`Except PyExc`.  `try`/`except` blocks are modelled by `tryExcept`, which
re-raises exceptions that no listed class catches.
-/

set_option autoImplicit false

namespace PyLearning

/-- The Python exception values raised anywhere in the embedded code.
Constructors carry the message (and, where the code reads them, the extra
attributes) that the corresponding Python exception object carries. -/
inductive PyExc where
  | zeroDivisionError
  | valueError (msg : String)
  | typeError (msg : String)
  | keyError (msg : String)
  | indexError (msg : String)
  | fileNotFoundError (msg : String)
  | jsonDecodeError (msg : String)
  | businessLogicError (msg : String) (errorCode : Option String)
  | validationError (msg : String) (fieldName : Option String)
  | authenticationError (msg : String) (userId : Option String)
  | resourceNotFoundError (resourceType : String)
  | configurationError (msg : String)
  | dataProcessingError (msg : String)
  | transformationError (msg : String)
  | multipleErrorsException (msg : String)
  | frozenInstanceError (field : String)
  deriving DecidableEq

/-- The exception classes that appear in `except ...:` clauses of the
embedded code. -/
inductive ExcClass where
  | ExceptionCls
  | ZeroDivisionErrorCls
  | ValueErrorCls
  | TypeErrorCls
  | KeyErrorCls
  | IndexErrorCls
  | FileNotFoundErrorCls
  | PermissionErrorCls
  | JSONDecodeErrorCls
  | BusinessLogicErrorCls
  | ValidationErrorCls
  | ConfigurationErrorCls
  | DataProcessingErrorCls
  deriving DecidableEq

/-- Python's `isinstance` on exception values, encoding the class hierarchy
of the built-in exceptions and of the custom exception classes defined in
`errorException/custom_exceptions.py` (`ValidationError`,
`AuthenticationError` and `ResourceNotFoundError` derive from
`BusinessLogicError`; `json.JSONDecodeError` derives from `ValueError`;
everything derives from `Exception`). -/
def instanceOf (e : PyExc) (c : ExcClass) : Bool :=
  match c, e with
  | .ExceptionCls, _ => true
  | .ZeroDivisionErrorCls, .zeroDivisionError => true
  | .ValueErrorCls, .valueError _ => true
  | .ValueErrorCls, .jsonDecodeError _ => true
  | .TypeErrorCls, .typeError _ => true
  | .KeyErrorCls, .keyError _ => true
  | .IndexErrorCls, .indexError _ => true
  | .FileNotFoundErrorCls, .fileNotFoundError _ => true
  | .JSONDecodeErrorCls, .jsonDecodeError _ => true
  | .BusinessLogicErrorCls, .businessLogicError _ _ => true
  | .BusinessLogicErrorCls, .validationError _ _ => true
  | .BusinessLogicErrorCls, .authenticationError _ _ => true
  | .BusinessLogicErrorCls, .resourceNotFoundError _ => true
  | .ValidationErrorCls, .validationError _ _ => true
  | .ConfigurationErrorCls, .configurationError _ => true
  | .DataProcessingErrorCls, .dataProcessingError _ => true
  | .DataProcessingErrorCls, .validationError _ _ => true
  | .DataProcessingErrorCls, .transformationError _ => true
  | _, _ => false

instance instDecidableEqExceptPy {ε α : Type} [DecidableEq ε] [DecidableEq α] :
    DecidableEq (Except ε α) := fun x y =>
  match x, y with
  | .ok a, .ok b =>
    if h : a = b then .isTrue (by rw [h]) else .isFalse (fun hc => by cases hc; exact h rfl)
  | .ok _, .error _ => .isFalse (fun hc => by cases hc)
  | .error _, .ok _ => .isFalse (fun hc => by cases hc)
  | .error e, .error f =>
    if h : e = f then .isTrue (by rw [h]) else .isFalse (fun hc => by cases hc; exact h rfl)

/-- Does one of the classes in an `except (C1, C2, ...)` clause catch the
exception `e`? -/
def catchAny (cs : List ExcClass) (e : PyExc) : Bool :=
  cs.any (fun c => instanceOf e c)

/-- A Python `try: body except (classes): handler` block: the handler runs
exactly when a listed class catches the raised exception; otherwise the
exception propagates. -/
def tryExcept {α : Type} (body : Except PyExc α) (cs : List ExcClass)
    (handler : PyExc → Except PyExc α) : Except PyExc α :=
  match body with
  | .ok a => .ok a
  | .error e => if catchAny cs e then handler e else .error e

/-- The value of a non-empty all-digit character sequence; `none` as soon
as a non-digit appears. -/
def digitsVal? (cs : List Char) : Option Nat :=
  cs.foldl
    (fun acc c =>
      match acc with
      | none => none
      | some n => if c.isDigit then some (n * 10 + (c.toNat - 48)) else none)
    (some 0)

/-- Python's `int(s)` on a string: an optionally `-`-signed run of digits
parses, anything else raises `ValueError` (this models exactly the strings
the repository feeds to `int`, none of which use whitespace, a `+` sign or
underscore digit grouping). -/
def pyInt (s : String) : Except PyExc Int :=
  match s.data with
  | [] =>
    .error (.valueError ("invalid literal for int() with base 10: \x27" ++ s ++ "\x27"))
  | c :: cs =>
    if c = '-' then
      match cs, digitsVal? cs with
      | _ :: _, some n => .ok (-(n : Int))
      | _, _ =>
        .error (.valueError ("invalid literal for int() with base 10: \x27" ++ s ++ "\x27"))
    else
      match digitsVal? (c :: cs) with
      | some n => .ok (n : Int)
      | none =>
        .error (.valueError ("invalid literal for int() with base 10: \x27" ++ s ++ "\x27"))

/-- Python's true division on numbers (the repository only divides exact
values, modelled in `ℚ`): raises `ZeroDivisionError` on a zero divisor. -/
def pyDivQ (a b : ℚ) : Except PyExc ℚ :=
  if b = 0 then .error .zeroDivisionError else .ok (a / b)

/-- A Python value that is either an `int` or a `str` (the two cases the
embedded validation code distinguishes with `isinstance`). -/
inductive PyPrim where
  | int (n : Int)
  | str (s : String)
  deriving DecidableEq

end PyLearning

namespace PyLearning

namespace special_methods

/-- `Vector` from `classes/special_methods.py`: a 2-D vector whose
components, always exact numbers in the repository, are modelled as `ℚ`. -/
structure Vector where
  x : ℚ
  y : ℚ
  deriving DecidableEq

/-- `Vector.__add__`. -/
def Vector.add (u v : Vector) : Vector :=
  ⟨u.x + v.x, u.y + v.y⟩

/-- `Vector.__neg__`. -/
def Vector.neg (v : Vector) : Vector :=
  ⟨-v.x, -v.y⟩

/-- `Vector.__eq__` between two vectors: componentwise equality. -/
def Vector.eqb (u v : Vector) : Bool :=
  decide (u.x = v.x) && decide (u.y = v.y)

end special_methods

namespace dataclasses_demo

/-- `ImmutablePoint` from `classes/dataclasses_demo.py`: a frozen dataclass
with two coordinates (exact values, modelled as `ℚ`). -/
structure ImmutablePoint where
  x : ℚ
  y : ℚ
  deriving DecidableEq

/-- Constructing an `ImmutablePoint`: `__post_init__` raises `ValueError`
when a coordinate is negative. -/
def ImmutablePoint.make (x y : ℚ) : Except PyExc ImmutablePoint :=
  if x < 0 ∨ y < 0 then .error (.valueError ("Coordinates must be non-negative"))
  else .ok ⟨x, y⟩

/-- Assigning to a field of a frozen dataclass instance: Python raises
`dataclasses.FrozenInstanceError` on every attempt, leaving the instance
unchanged. -/
def ImmutablePoint.setAttr (_p : ImmutablePoint) (field : String) (_v : ℚ) :
    Except PyExc ImmutablePoint :=
  .error (.frozenInstanceError field)

end dataclasses_demo

namespace main

/-- The calls that the body of `demo_function` in `src/main.py` contains, in
source order.  The `demo_classes()` line in that body is commented out, so it
is not a call. -/
def demo_function_call_sites : List String :=
  ["demo_error_exception", "demo_concurrency"]

end main

/-- Python's `f"{x:.2f}"` on the exact non-negative values the repository
formats (none of which sits on a rounding tie): scale by 100, round (the
floor of `q * 100 + 1/2`, written out on the numerator and denominator so
that it evaluates), and print with two fractional digits. -/
def format2f (q : ℚ) : String :=
  let r := q * 100 + 1 / 2
  let n : Nat := r.num.toNat / r.den
  let ip := n / 100
  let fp := n % 100
  toString ip ++ "." ++ (if fp < 10 then ("0") else ("")) ++ toString fp

namespace basic_classes

/-- `BankAccount` from `classes/basic_classes.py`.  The balance, an exact
amount of money, is modelled as `ℚ`; `_transactions` as a list of the
recorded strings. -/
structure BankAccount where
  account_holder : String
  balance : ℚ
  transactions : List String
  deriving DecidableEq

/-- `BankAccount.__init__`. -/
def BankAccount.new (account_holder : String) (initial_balance : ℚ) : BankAccount :=
  ⟨account_holder, initial_balance, []⟩

/-- `BankAccount.deposit`: raises `ValueError` on a non-positive amount,
otherwise adds the amount to the balance and records the transaction. -/
def BankAccount.deposit (acct : BankAccount) (amount : ℚ) : Except PyExc BankAccount :=
  if amount ≤ 0 then .error (.valueError ("Deposit amount must be positive"))
  else .ok { acct with
    balance := acct.balance + amount
    transactions := acct.transactions ++ ["Deposited $" ++ format2f amount] }

/-- `BankAccount.withdraw`: raises `ValueError` on a non-positive amount;
returns `False` leaving the account untouched when the amount exceeds the
balance; otherwise subtracts the amount, records it, and returns `True`. -/
def BankAccount.withdraw (acct : BankAccount) (amount : ℚ) :
    Except PyExc (Bool × BankAccount) :=
  if amount ≤ 0 then .error (.valueError ("Withdrawal amount must be positive"))
  else if acct.balance < amount then .ok (false, acct)
  else .ok (true, { acct with
    balance := acct.balance - amount
    transactions := acct.transactions ++ ["Withdrew $" ++ format2f amount] })

/-- One call a client can make on a `BankAccount`. -/
inductive AccountOp where
  | dep (amount : ℚ)
  | wd (amount : ℚ)

/-- Perform one call.  `deposit` and `withdraw` raise before touching any
field, so when the call raises (or returns `False`) the account is exactly
as it was. -/
def applyOp (acct : BankAccount) (op : AccountOp) : BankAccount :=
  match op with
  | .dep a =>
    match acct.deposit a with
    | .ok acct2 => acct2
    | .error _ => acct
  | .wd a =>
    match acct.withdraw a with
    | .ok (_, acct2) => acct2
    | .error _ => acct

/-- Perform a sequence of calls. -/
def runOps (ops : List AccountOp) (acct : BankAccount) : BankAccount :=
  ops.foldl applyOp acct

end basic_classes

namespace threading_demo

/-- `Counter` from `concurrency/threading_demo.py`: the lock-protected value. -/
structure Counter where
  value : Int
  deriving DecidableEq

/-- `Counter.__init__`: the value starts at 0. -/
def Counter.init : Counter := ⟨0⟩

/-- `Counter.increment`: the whole read - sleep - write sequence runs under
`self._lock`, so it is one atomic step that adds exactly one. -/
def Counter.increment (c : Counter) : Counter := ⟨c.value + 1⟩

/-- `Counter.get_value`. -/
def Counter.get_value (c : Counter) : Int := c.value

/-- An execution of `demo_thread_safe_counter`'s five worker threads:
because each increment holds the lock, any interleaving the scheduler
produces is a serial list of increment events, tagged by the worker that
performed each one. -/
def runSchedule (sched : List (Fin 5)) (c : Counter) : Counter :=
  sched.foldl (fun acc _ => acc.increment) c

/-- One concrete admissible schedule of `demo_thread_safe_counter`: each of
the five worker threads runs its 20 increments to completion before the
next starts. -/
def demoSchedule : List (Fin 5) :=
  (List.finRange 5).flatMap (fun i => List.replicate 20 i)

/-- The two lines `worker_function` prints, given the thread's name and the
`work_time` drawn from `random.uniform(0.5, 1.5)`. -/
def worker_function_output (name : String) (work_time : ℚ) : List String :=
  ["Worker " ++ name ++ " starting work...",
   "Worker " ++ name ++ " completed work in " ++ format2f work_time ++ "s"]

/-- The print calls of `demo_basic_threading`, with the three spawned
threads serialized in creation order (one admissible schedule) and
`d0 d1 d2` the three draws of `random.uniform(0.5, 1.5)` used as work
times. -/
def demo_basic_threading_output (d0 d1 d2 : ℚ) : List String :=
  ["\n1. Basic Threading:", "------------------"]
    ++ worker_function_output ("T0") d0
    ++ worker_function_output ("T1") d1
    ++ worker_function_output ("T2") d2
    ++ ["All basic threads completed"]

end threading_demo

namespace file_operations

/-- The filesystem, as far as `demo_file_operations` touches it: the
existing files, each with a name and contents. -/
abbrev FS := List (String × String)

/-- Does a file with this name exist? -/
def hasFile (fs : FS) (p : String) : Bool :=
  fs.any (fun e => e.1 == p)

/-- `Path.unlink`'s effect: drop the file. -/
def removeFile (fs : FS) (p : String) : FS :=
  fs.filter (fun e => !(e.1 == p))

/-- `open(p, "w")` followed by writing `c`: the file now holds exactly `c`. -/
def writeFile (fs : FS) (p c : String) : FS :=
  (p, c) :: removeFile fs p

/-- `open(p, "r")` followed by reading: raises `FileNotFoundError` when the
file does not exist. -/
def readFile (fs : FS) (p : String) : Except PyExc String :=
  match fs.find? (fun e => e.1 == p) with
  | some e => .ok e.2
  | none => .error (.fileNotFoundError p)

/-- `open(p, "a")` followed by writing `c`: appends, creating the file when
missing. -/
def appendFile (fs : FS) (p c : String) : FS :=
  match fs.find? (fun e => e.1 == p) with
  | some e => writeFile fs p (e.2 ++ c)
  | none => writeFile fs p c

/-- `Path.unlink()`: raises `FileNotFoundError` when the file is missing. -/
def unlinkFile (fs : FS) (p : String) : Except PyExc FS :=
  if hasFile fs p then .ok (removeFile fs p) else .error (.fileNotFoundError p)

/-- The text `json.dump({"name": "Alice", "age": 30, "city": "New York"},
file, indent=2)` writes. -/
def json_dump_text : String :=
  "\x7b\n  \"name\": \"Alice\",\n  \"age\": 30,\n  \"city\": \"New York\"\n\x7d"

/-- The `try:` block of `demo_file_operations`, started after the temporary
file `tmp` has been created: read `tmp`, append to it, read its lines, dump
JSON to `jsonP`, load it back, then unlink both files.  Returns the result
together with the filesystem as it stands when the block exits (normally or
by an exception). -/
def demoTryBody (fs1 : FS) (tmp jsonP : String) : Except PyExc FS × FS :=
  match readFile fs1 tmp with
  | .error e => (.error e, fs1)
  | .ok _content =>
    let fs2 := appendFile fs1 tmp ("Additional line.\n")
    match readFile fs2 tmp with
    | .error e => (.error e, fs2)
    | .ok _lines =>
      let fs3 := writeFile fs2 jsonP json_dump_text
      match readFile fs3 jsonP with
      | .error e => (.error e, fs3)
      | .ok _loaded =>
        match unlinkFile fs3 tmp with
        | .error e => (.error e, fs3)
        | .ok fs4 =>
          match unlinkFile fs4 jsonP with
          | .error e => (.error e, fs4)
          | .ok fs5 => (.ok fs5, fs5)

/-- `demo_file_operations`, given the pre-existing filesystem and the fresh
basename `tempfile.NamedTemporaryFile(suffix=".txt")` chose: it creates
`base ++ ".txt"`, runs the `try:` block, and catches `FileNotFoundError`,
`PermissionError` and `json.JSONDecodeError` (the handlers only print).
Returns the filesystem at return time. -/
def demo_file_operations (fs : FS) (base : String) : Except PyExc FS :=
  let tmp := base ++ ".txt"
  let jsonP := base ++ ".json"
  let fs1 := writeFile fs tmp ("Hello, World!\nThis is a test file.\n")
  match demoTryBody fs1 tmp jsonP with
  | (.ok fsFinal, _) => .ok fsFinal
  | (.error e, fsAt) =>
    if catchAny [.FileNotFoundErrorCls, .PermissionErrorCls, .JSONDecodeErrorCls] e
    then .ok fsAt else .error e

end file_operations

namespace basic_exceptions

/-- `demo_try_except`: divide 10 by 0 catching `ZeroDivisionError` (with a
fallback `except Exception`), then parse `"not_a_number"` catching
`ValueError` (same fallback); the handlers only print. -/
def demo_try_except : Except PyExc Unit := do
  let _ ← tryExcept (do let _ ← pyDivQ 10 0; pure ())
    [.ZeroDivisionErrorCls, .ExceptionCls] (fun _ => .ok ())
  tryExcept (do let _ ← pyInt ("not_a_number"); pure ())
    [.ValueErrorCls, .ExceptionCls] (fun _ => .ok ())

/-- `safe_divide` from `demo_try_except_else`: returns `None` on a zero
divisor, the quotient otherwise (the `else:` clause only prints). -/
def safe_divide (a b : ℚ) : Except PyExc (Option ℚ) :=
  tryExcept (do let r ← pyDivQ a b; pure (some r))
    [.ZeroDivisionErrorCls] (fun _ => .ok none)

/-- `demo_try_except_else`. -/
def demo_try_except_else : Except PyExc Unit := do
  let _ ← safe_divide 10 2
  let _ ← safe_divide 10 0
  pure ()

/-- `open(filename, "r")` followed by `.read()`, over the set of existing
file names (the demo only prints the content's length, so the text itself
is irrelevant and modelled as empty). -/
def pyOpenRead (files : List String) (filename : String) : Except PyExc String :=
  if files.contains filename then .ok ("") else .error (.fileNotFoundError filename)

/-- `process_file` from `demo_try_except_finally`: open and read, catching
`FileNotFoundError` and `PermissionError`; the `finally:` clause only
closes the handle and prints. -/
def process_file (files : List String) (filename : String) : Except PyExc Unit :=
  tryExcept (do let _ ← pyOpenRead files filename; pure ())
    [.FileNotFoundErrorCls, .PermissionErrorCls] (fun _ => .ok ())

/-- `demo_try_except_finally`. -/
def demo_try_except_finally (files : List String) : Except PyExc Unit :=
  process_file files ("nonexistent_file.txt")

/-- `risky_operation` from `demo_multiple_exceptions` over the data shapes
the demo passes: `None` or a list of strings.  `data[0]` raises `TypeError`
on `None` and `IndexError` on an empty list; `int(first)` may raise
`ValueError`; `100 / n` may raise `ZeroDivisionError`.  Every handler only
prints. -/
def risky_operation (data : Option (List String)) : Except PyExc Unit :=
  tryExcept
    (do
      let xs ← match data with
        | none => .error (.typeError ("\x27NoneType\x27 object is not subscriptable"))
        | some xs => pure xs
      let first ← match xs.head? with
        | none => .error (.indexError ("list index out of range"))
        | some s => pure s
      let n ← pyInt first
      let _ ← pyDivQ 100 (n : ℚ)
      pure ())
    [.TypeErrorCls, .IndexErrorCls, .ValueErrorCls, .ZeroDivisionErrorCls, .ExceptionCls]
    (fun _ => .ok ())

/-- `demo_multiple_exceptions`: the five test calls of the demo. -/
def demo_multiple_exceptions : Except PyExc Unit := do
  let _ ← risky_operation (some [])
  let _ ← risky_operation (some [("0")])
  let _ ← risky_operation (some [("abc")])
  let _ ← risky_operation none
  let _ ← risky_operation (some [("5")])
  pure ()

/-- `demo_exception_hierarchy` only constructs exception objects and prints
their types and MROs; it raises nothing. -/
def demo_exception_hierarchy : Except PyExc Unit := .ok ()

/-- `validate_age` from `demo_raise_exceptions`. -/
def validate_age (age : PyPrim) : Except PyExc Unit :=
  match age with
  | .str _ => .error (.typeError ("Age must be an integer"))
  | .int n =>
    if n < 0 then .error (.valueError ("Age cannot be negative"))
    else if n > 150 then .error (.valueError ("Age seems unrealistic"))
    else .ok ()

/-- `demo_raise_exceptions`: validate the five test ages, catching
`(TypeError, ValueError)` around each. -/
def demo_raise_exceptions : Except PyExc Unit :=
  [PyPrim.int 25, .int (-5), .int 200, .str ("thirty"), .int 45].foldlM
    (fun _ age => tryExcept (validate_age age)
      [.TypeErrorCls, .ValueErrorCls] (fun _ => .ok ()))
    ()

/-- `inner_function` from `demo_exception_context`. -/
def inner_function : Except PyExc Unit :=
  .error (.valueError ("Something went wrong in inner function"))

/-- `middle_function`: catches the `ValueError`, prints, and re-raises. -/
def middle_function : Except PyExc Unit :=
  tryExcept inner_function [.ValueErrorCls] (fun e => .error e)

/-- `outer_function` as run by `demo_exception_context`: catches the
re-raised `ValueError` and prints it. -/
def demo_exception_context : Except PyExc Unit :=
  tryExcept middle_function [.ValueErrorCls] (fun _ => .ok ())

/-- `demo_basic_exceptions`: the seven sub-demos in sequence.  `files` is
the set of file names existing in the working directory (the only
filesystem access is `process_file` on `"nonexistent_file.txt"`). -/
def demo_basic_exceptions (files : List String) : Except PyExc Unit := do
  demo_try_except
  demo_try_except_else
  demo_try_except_finally files
  demo_multiple_exceptions
  demo_exception_hierarchy
  demo_raise_exceptions
  demo_exception_context

end basic_exceptions

namespace custom_exceptions

/-- The shape of the user dictionaries `demo_basic_custom_exceptions`
passes to `validate_user_data`: an optional `"username"` entry and an
optional `"age"` entry. -/
structure UserData where
  username : Option String
  age : Option PyPrim

/-- `validate_user_data`: raises `ValidationError` when the username is
missing or shorter than 3 characters, or when an `age` entry is not an
`int`. -/
def validate_user_data (d : UserData) : Except PyExc Unit :=
  match d.username with
  | none => .error (.validationError ("Username is required") (some ("username")))
  | some username =>
    if username.length < 3 then
      .error (.validationError ("Username must be at least 3 characters") (some ("username")))
    else
      match d.age with
      | some (.str _) => .error (.validationError ("Age must be an integer") (some ("age")))
      | _ => .ok ()

/-- `demo_basic_custom_exceptions`: the four test dictionaries, each tried
with `except ValidationError` (the handler prints). -/
def demo_basic_custom_exceptions : Except PyExc Unit :=
  ([⟨none, none⟩, ⟨some ("ab"), none⟩, ⟨some ("alice"), some (.str ("twenty"))⟩,
    ⟨some ("alice"), some (.int 25)⟩] : List UserData).foldlM
    (fun _ d => tryExcept (validate_user_data d) [.ValidationErrorCls] (fun _ => .ok ()))
    ()

/-- `authenticate_user` from `demo_exception_hierarchy_usage`. -/
def authenticate_user (username password : String) : Except PyExc Bool :=
  if username = "" then .error (.authenticationError ("Username cannot be empty") none)
  else if password = "" then .error (.authenticationError ("Password cannot be empty") none)
  else if username = "admin" ∧ password = "secret" then .ok true
  else .error (.authenticationError ("Invalid credentials") (some username))

/-- `find_user`: the demo's user table holds IDs 1 (Alice) and 2 (Bob);
anything else raises `ResourceNotFoundError`. -/
def find_user (user_id : Int) : Except PyExc String :=
  if user_id = 1 then .ok ("Alice")
  else if user_id = 2 then .ok ("Bob")
  else .error (.resourceNotFoundError ("User"))

/-- `demo_exception_hierarchy_usage`: the four authentication attempts and
three user lookups, each tried with `except BusinessLogicError`. -/
def demo_exception_hierarchy_usage : Except PyExc Unit := do
  let _ ← [("", "password"), ("user", ""), ("user", "wrong"), ("admin", "secret")].foldlM
    (fun _ t => tryExcept (do let _ ← authenticate_user t.1 t.2; pure ())
      [.BusinessLogicErrorCls] (fun _ => .ok ()))
    ()
  ([1, 2, 999] : List Int).foldlM
    (fun _ uid => tryExcept (do let _ ← find_user uid; pure ())
      [.BusinessLogicErrorCls] (fun _ => .ok ()))
    ()

/-- `load_config` from `demo_exception_with_context`. -/
def load_config (config_file : String) : Except PyExc Unit :=
  if config_file = "missing.conf" then
    .error (.configurationError ("Configuration file not found"))
  else if config_file = "invalid.conf" then
    .error (.configurationError ("Invalid configuration format"))
  else .ok ()

/-- `demo_exception_with_context`: the three config files, each tried with
`except ConfigurationError`. -/
def demo_exception_with_context : Except PyExc Unit :=
  [("app.conf"), ("missing.conf"), ("invalid.conf")].foldlM
    (fun _ f => tryExcept (load_config f) [.ConfigurationErrorCls] (fun _ => .ok ()))
    ()

/-- `process_data` from this module's `demo_exception_chaining`: `int(data)`
with the `ValueError` re-raised as a `ValidationError`. -/
def process_data (data : String) : Except PyExc Int :=
  tryExcept (pyInt data) [.ValueErrorCls]
    (fun _ => .error (.validationError
      ("Cannot convert \x27" ++ data ++ "\x27 to integer") (some ("data"))))

/-- `calculate_result`: sums `process_data` over the list, re-raising a
`ValidationError` as a `BusinessLogicError`. -/
def calculate_result (data_list : List String) : Except PyExc Int :=
  tryExcept
    (data_list.foldlM (fun acc item => do let n ← process_data item; pure (acc + n)) 0)
    [.ValidationErrorCls]
    (fun _ => .error (.businessLogicError
      ("Failed to calculate result due to invalid data") (some ("CALCULATION_ERROR"))))

/-- This module's own `demo_exception_chaining` (distinct from the one in
`exception_chaining.py`): runs `calculate_result` on the test data with
`except BusinessLogicError` (the handler prints the chain). -/
def demo_exception_chaining : Except PyExc Unit :=
  tryExcept (do let _ ← calculate_result [("1"), ("2"), ("invalid"), ("4")]; pure ())
    [.BusinessLogicErrorCls] (fun _ => .ok ())

/-- `demo_custom_exceptions`: the four sub-demos in sequence
(`demo_retryable_exceptions` is defined in the module but not called). -/
def demo_custom_exceptions : Except PyExc Unit := do
  demo_basic_custom_exceptions
  demo_exception_hierarchy_usage
  demo_exception_with_context
  demo_exception_chaining

end custom_exceptions

namespace exception_chaining

/-- `parse_config_value` from `demo_basic_chaining`: `int(value)` with the
`ValueError` re-raised as a `TypeError` (chained with `from`). -/
def parse_config_value (value : String) (_field_name : String) : Except PyExc Int :=
  tryExcept (pyInt value) [.ValueErrorCls]
    (fun _ => .error (.typeError ("Cannot convert \x27" ++ value ++ "\x27 to integer")))

/-- `load_configuration` from `demo_basic_chaining`: parses each entry,
catching only `ValueError` around the parse (the handler prints and skips
the entry).  A `TypeError` from `parse_config_value` is not caught here and
propagates. -/
def load_configuration (config_data : List (String × String)) :
    Except PyExc (List (String × Int)) :=
  config_data.foldlM
    (fun parsed kv =>
      tryExcept (do let n ← parse_config_value kv.2 kv.1; pure (parsed ++ [(kv.1, n)]))
        [.ValueErrorCls] (fun _ => .ok parsed))
    []

/-- The `test_config` dictionary of `demo_basic_chaining`, in insertion
order. -/
def test_config : List (String × String) :=
  [("port", "8080"), ("timeout", "30.5"), ("debug", "true"),
   ("invalid_field", "not_parseable_value")]

/-- `demo_basic_chaining`: loads `test_config` (and would print the
result). -/
def demo_basic_chaining : Except PyExc Unit := do
  let _ ← load_configuration test_config
  pure ()

/-- The module-level `demo_exception_chaining`: `demo_basic_chaining`
followed by the four remaining sub-demos, which are taken as parameters
because they are unreachable when `demo_basic_chaining` raises. -/
def demo_exception_chaining
    (with_context suppression nested groups : Except PyExc Unit) :
    Except PyExc Unit := do
  demo_basic_chaining
  with_context
  suppression
  nested
  groups

end exception_chaining

namespace errorException

/-- `demo_error_exception` from `errorException/__init__.py`: the six demo
modules in sequence.  The last three (`demo_context_managers`,
`demo_logging_exceptions`, `demo_best_practices`) and the tail of
`demo_exception_chaining` are parameters: they run after the point at
which `demo_basic_chaining` raises, so no behaviour of theirs can affect
the result. -/
def demo_error_exception (files : List String)
    (chainingWithContext chainingSuppression chainingNested chainingGroups
     contextManagersDemo loggingExceptionsDemo bestPracticesDemo :
      Except PyExc Unit) : Except PyExc Unit := do
  basic_exceptions.demo_basic_exceptions files
  custom_exceptions.demo_custom_exceptions
  exception_chaining.demo_exception_chaining
    chainingWithContext chainingSuppression chainingNested chainingGroups
  contextManagersDemo
  loggingExceptionsDemo
  bestPracticesDemo

end errorException

namespace main

/-- `demo_function` from `src/main.py`: `demo_error_exception()` then
`demo_concurrency()` (the `demo_classes()` call is commented out).
`concurrencyDemo` is a parameter: it runs after `demo_error_exception`, so
its behaviour cannot affect a raised exception from the first call. -/
def demo_function (files : List String)
    (chainingWithContext chainingSuppression chainingNested chainingGroups
     contextManagersDemo loggingExceptionsDemo bestPracticesDemo
     concurrencyDemo : Except PyExc Unit) : Except PyExc Unit := do
  errorException.demo_error_exception files
    chainingWithContext chainingSuppression chainingNested chainingGroups
    contextManagersDemo loggingExceptionsDemo bestPracticesDemo
  concurrencyDemo

end main

end PyLearning

namespace PyLearning

/-- Binding an `ok` value in the `Except` monad runs the continuation. -/
theorem ok_bind {α β : Type} (a : α) (f : α → Except PyExc β) :
    (do let x ← (.ok a : Except PyExc α); f x) = f a := rfl

/-- Binding a raised exception in the `Except` monad propagates it. -/
theorem error_bind {α β : Type} (e : PyExc) (f : α → Except PyExc β) :
    (do let x ← (.error e : Except PyExc α); f x) = (.error e : Except PyExc β) := rfl

/-- C5 counterexample: the claim says a single run of `demo_function` calls
`demo_classes` exactly one time, but the body of `demo_function` contains
no call to it (the line is commented out), so its call count is 0, not 1. -/
theorem demo_classes_not_called_once :
    ¬ main.demo_function_call_sites.count ("demo_classes") = 1 := by decide

/-- C5 (amended): the body of `demo_function` calls `demo_error_exception`
once and `demo_concurrency` once; the `demo_classes()` call is commented
out, so `demo_classes` is called zero times. -/
theorem demo_function_call_counts :
    main.demo_function_call_sites.count ("demo_error_exception") = 1 ∧
    main.demo_function_call_sites.count ("demo_concurrency") = 1 ∧
    main.demo_function_call_sites.count ("demo_classes") = 0 := by decide

/-- C8: under `Vector.__eq__`, vector addition is commutative and adding
the negation of a vector yields `Vector(0, 0)`, with exact coordinates. -/
theorem vector_add_comm_and_neg_cancel (u v : special_methods.Vector) :
    special_methods.Vector.eqb (u.add v) (v.add u) = true ∧
    special_methods.Vector.eqb (v.add v.neg) ⟨0, 0⟩ = true := by
  constructor <;>
    simp [special_methods.Vector.eqb, special_methods.Vector.add,
      special_methods.Vector.neg, add_comm]

/-- C9: `ImmutablePoint(x, y)` raises `ValueError` exactly when `x < 0` or
`y < 0`; a successfully constructed point carries exactly the given
non-negative coordinates; and every attempt to assign to a field of a
constructed point raises `FrozenInstanceError`, leaving it unchanged. -/
theorem immutable_point_validation (x y : ℚ) :
    (dataclasses_demo.ImmutablePoint.make x y
        = .error (.valueError ("Coordinates must be non-negative")) ↔ x < 0 ∨ y < 0) ∧
    (∀ p, dataclasses_demo.ImmutablePoint.make x y = .ok p →
        p.x = x ∧ p.y = y ∧ 0 ≤ p.x ∧ 0 ≤ p.y) ∧
    (∀ (p : dataclasses_demo.ImmutablePoint) (f : String) (v : ℚ),
        dataclasses_demo.ImmutablePoint.setAttr p f v = .error (.frozenInstanceError f)) := by
  refine ⟨?_, ?_, fun p f v => rfl⟩
  · unfold dataclasses_demo.ImmutablePoint.make
    split_ifs with h <;> simp [h]
  · intro p hp
    unfold dataclasses_demo.ImmutablePoint.make at hp
    split_ifs at hp with h
    push_neg at h
    rw [Except.ok.injEq] at hp
    subst hp
    exact ⟨rfl, rfl, h.1, h.2⟩

/-- C9 witness: `ImmutablePoint(1, 2)` constructs successfully and its
coordinates are the given non-negative values. -/
theorem immutable_point_validation_witness :
    (⟨1, 2⟩ : dataclasses_demo.ImmutablePoint).x = 1 ∧
    (⟨1, 2⟩ : dataclasses_demo.ImmutablePoint).y = 2 ∧
    (0:ℚ) ≤ (⟨1, 2⟩ : dataclasses_demo.ImmutablePoint).x ∧
    (0:ℚ) ≤ (⟨1, 2⟩ : dataclasses_demo.ImmutablePoint).y :=
  (immutable_point_validation 1 2).2.1 ⟨1, 2⟩ (by decide)

/-- C3: `BankAccount.deposit` raises `ValueError` exactly when the amount
is non-positive, and otherwise adds the amount to the balance (recording
the transaction); `BankAccount.withdraw` raises `ValueError` exactly when
the amount is non-positive. -/
theorem bank_account_deposit_withdraw_validation
    (acct : basic_classes.BankAccount) (amount : ℚ) :
    (acct.deposit amount
        = .error (.valueError ("Deposit amount must be positive")) ↔ amount ≤ 0) ∧
    (0 < amount → acct.deposit amount = .ok { acct with
        balance := acct.balance + amount
        transactions := acct.transactions ++ ["Deposited $" ++ format2f amount] }) ∧
    (acct.withdraw amount
        = .error (.valueError ("Withdrawal amount must be positive")) ↔ amount ≤ 0) := by
  unfold basic_classes.BankAccount.deposit basic_classes.BankAccount.withdraw
  refine ⟨?_, ?_, ?_⟩
  · split_ifs with h <;> simp [h]
  · intro h
    rw [if_neg (not_le.mpr h)]
  · split_ifs with h h2 <;> simp [h]

/-- C3 witness: on the account `BankAccount("John Doe", 1000)`, depositing
the positive amount 500 succeeds and adds exactly 500 to the balance. -/
theorem bank_account_deposit_withdraw_validation_witness :
    (0:ℚ) < 500 ∧
    (basic_classes.BankAccount.new ("John Doe") 1000).deposit 500
      = .ok { basic_classes.BankAccount.new ("John Doe") 1000 with
          balance := (basic_classes.BankAccount.new ("John Doe") 1000).balance + 500
          transactions := (basic_classes.BankAccount.new ("John Doe") 1000).transactions
            ++ ["Deposited $" ++ format2f 500] } :=
  ⟨by norm_num, (bank_account_deposit_withdraw_validation _ 500).2.1 (by norm_num)⟩

/-- C7: withdrawing a positive amount larger than the balance returns
`False` and leaves the balance and the transaction history unchanged, and
under any sequence of `deposit`/`withdraw` calls a balance that starts
non-negative stays non-negative. -/
theorem bank_account_balance_never_negative
    (acct : basic_classes.BankAccount) (a : ℚ) (ops : List basic_classes.AccountOp) :
    (0 < a → acct.balance < a → acct.withdraw a = .ok (false, acct)) ∧
    (0 ≤ acct.balance → 0 ≤ (basic_classes.runOps ops acct).balance) := by
  constructor
  · intro hpos hgt
    unfold basic_classes.BankAccount.withdraw
    rw [if_neg (not_le.mpr hpos), if_pos hgt]
  · suffices hgen : ∀ (l : List basic_classes.AccountOp) (acct2 : basic_classes.BankAccount),
        0 ≤ acct2.balance → 0 ≤ (basic_classes.runOps l acct2).balance from hgen ops acct
    intro l
    induction l with
    | nil => intro acct2 h0; exact h0
    | cons op rest ih =>
      intro acct2 h0
      have hstep : 0 ≤ (basic_classes.applyOp acct2 op).balance := by
        cases op with
        | dep b =>
          dsimp only [basic_classes.applyOp, basic_classes.BankAccount.deposit]
          split_ifs with hb
          · exact h0
          · push_neg at hb
            dsimp only
            linarith
        | wd b =>
          dsimp only [basic_classes.applyOp, basic_classes.BankAccount.withdraw]
          split_ifs with hb hlt
          · exact h0
          · exact h0
          · push_neg at hlt
            dsimp only
            linarith
      have hrest := ih (basic_classes.applyOp acct2 op) hstep
      simpa [basic_classes.runOps] using hrest

/-- C7 witness: on `BankAccount("A", 3)`, withdrawing 5 (positive and above
the balance) returns `False` and changes nothing, and the balance stays
non-negative under the call sequence deposit 2, withdraw 10, withdraw 1. -/
theorem bank_account_balance_never_negative_witness :
    (basic_classes.BankAccount.new ("A") 3).withdraw 5
      = .ok (false, basic_classes.BankAccount.new ("A") 3) ∧
    0 ≤ (basic_classes.runOps [.dep 2, .wd 10, .wd 1]
          (basic_classes.BankAccount.new ("A") 3)).balance :=
  ⟨(bank_account_balance_never_negative (basic_classes.BankAccount.new ("A") 3) 5
      [.dep 2, .wd 10, .wd 1]).1 (by norm_num) (by norm_num [basic_classes.BankAccount.new]),
   (bank_account_balance_never_negative (basic_classes.BankAccount.new ("A") 3) 5
      [.dep 2, .wd 10, .wd 1]).2 (by norm_num [basic_classes.BankAccount.new])⟩

/-- C1: every `Counter.increment` adds exactly one to the stored value (the
whole read-modify-write holds the lock), so after any interleaving of the
five demo workers' 20 increments each - 100 lock-atomic increments in all -
a fresh counter's `get_value` returns exactly 100, the value the demo
prints as `Expected: 100`. -/
theorem counter_reaches_expected_100 (sched : List (Fin 5))
    (h : ∀ i : Fin 5, sched.count i = 20) :
    (∀ c : threading_demo.Counter, c.increment.get_value = c.get_value + 1) ∧
    (threading_demo.runSchedule sched threading_demo.Counter.init).get_value = 100 := by
  constructor
  · intro c
    rfl
  · have hval : ∀ (l : List (Fin 5)) (c : threading_demo.Counter),
        (threading_demo.runSchedule l c).get_value = c.get_value + l.length := by
      intro l
      induction l with
      | nil => intro c; simp [threading_demo.runSchedule, threading_demo.Counter.get_value]
      | cons e rest ih =>
        intro c
        have := ih c.increment
        simp only [threading_demo.runSchedule, List.foldl_cons] at this ⊢
        rw [this]
        simp [threading_demo.Counter.increment, threading_demo.Counter.get_value]
        omega
    have hlen : sched.length = 100 := by
      have hcard : ∑ a : Fin 5, (sched : Multiset (Fin 5)).count a
          = Multiset.card (sched : Multiset (Fin 5)) :=
        Multiset.sum_count_eq_card (fun a _ => Finset.mem_univ a)
      simp only [Multiset.coe_count, Multiset.coe_card] at hcard
      simp [h] at hcard
      omega
    rw [hval sched threading_demo.Counter.init, hlen]
    rfl

/-- C1 witness: the schedule in which each of the five workers performs its
20 increments in turn has count 20 for every worker, and running it from a
fresh counter yields exactly 100. -/
theorem counter_reaches_expected_100_witness :
    (∀ i : Fin 5, threading_demo.demoSchedule.count i = 20) ∧
    (threading_demo.runSchedule threading_demo.demoSchedule
        threading_demo.Counter.init).get_value = 100 :=
  have h : ∀ i : Fin 5, threading_demo.demoSchedule.count i = 20 := by decide
  ⟨h, (counter_reaches_expected_100 threading_demo.demoSchedule h).2⟩

unseal Rat.add Rat.mul Rat.inv Rat.sub in
/-- C6 counterexample: `demo_basic_threading` takes no inputs, but its
printed output embeds the `random.uniform(0.5, 1.5)` draws through
`f"{work_time:.2f}"`, so two runs whose first draw renders as 0.50 and
0.60 respectively print different lines even under the same thread
schedule - the demo is not deterministic across runs. -/
theorem demo_basic_threading_output_varies :
    threading_demo.demo_basic_threading_output (1/2) (1/2) (1/2)
    ≠ threading_demo.demo_basic_threading_output (3/5) (1/2) (1/2) := by decide

/-- C6 (amended): a demo's console output is a function of its random
draws (and thread schedule): two runs of `demo_basic_threading` whose
three draws render identically at two decimal places print, under the same
schedule, identical output. -/
theorem demo_basic_threading_output_determined_by_draws
    (d0 d1 d2 e0 e1 e2 : ℚ)
    (h0 : format2f d0 = format2f e0) (h1 : format2f d1 = format2f e1)
    (h2 : format2f d2 = format2f e2) :
    threading_demo.demo_basic_threading_output d0 d1 d2
    = threading_demo.demo_basic_threading_output e0 e1 e2 := by
  simp [threading_demo.demo_basic_threading_output,
    threading_demo.worker_function_output, h0, h1, h2]

unseal Rat.add Rat.mul Rat.inv Rat.sub in
/-- C6 witness: the draws 1/2 and 501/1000 differ but both render as 0.50,
so the corresponding runs print identical output. -/
theorem demo_basic_threading_output_determined_by_draws_witness :
    threading_demo.demo_basic_threading_output (1/2) (1/2) (1/2)
    = threading_demo.demo_basic_threading_output (501/1000) (1/2) (1/2) :=
  demo_basic_threading_output_determined_by_draws (1/2) (1/2) (1/2) (501/1000) (1/2) (1/2)
    (by decide) (by decide) (by decide)

/-- C2 (code-bug exhibit): `demo_function` does not execute to completion:
whatever the working directory contains and whatever the demos that come
after the failure point would do, it raises
`TypeError("Cannot convert '30.5' to integer")` to its caller.  Inside
`demo_basic_chaining`, `parse_config_value` turns the `ValueError` from
`int("30.5")` into a `TypeError`, and `load_configuration` catches only
`ValueError`, so the `TypeError` escapes every enclosing frame - exactly
what the repository's own test (`test_demo_function`) asserts cannot
happen. -/
theorem demo_function_raises_uncaught_typeerror (files : List String)
    (chainingWithContext chainingSuppression chainingNested chainingGroups
     contextManagersDemo loggingExceptionsDemo bestPracticesDemo
     concurrencyDemo : Except PyExc Unit) :
    main.demo_function files chainingWithContext chainingSuppression chainingNested
      chainingGroups contextManagersDemo loggingExceptionsDemo bestPracticesDemo
      concurrencyDemo
      = .error (.typeError ("Cannot convert \x2730.5\x27 to integer")) := by
  have hfin : basic_exceptions.demo_try_except_finally files = .ok () := by
    unfold basic_exceptions.demo_try_except_finally basic_exceptions.process_file
      basic_exceptions.pyOpenRead
    cases h : files.contains ("nonexistent_file.txt") <;>
      simp [h, ok_bind, error_bind, tryExcept, catchAny, instanceOf]
  have hbasic : basic_exceptions.demo_basic_exceptions files = .ok () := by
    unfold basic_exceptions.demo_basic_exceptions
    rw [show basic_exceptions.demo_try_except = .ok () from by decide, ok_bind,
        show basic_exceptions.demo_try_except_else = .ok () from by decide, ok_bind,
        hfin, ok_bind,
        show basic_exceptions.demo_multiple_exceptions = .ok () from by decide, ok_bind]
    decide
  unfold main.demo_function errorException.demo_error_exception
  rw [hbasic, ok_bind,
      show custom_exceptions.demo_custom_exceptions = .ok () from by decide, ok_bind]
  unfold exception_chaining.demo_exception_chaining
  rw [show exception_chaining.demo_basic_chaining
        = .error (.typeError ("Cannot convert \x2730.5\x27 to integer")) from by decide]
  rfl

namespace file_operations

/-- Removing a name that no existing file has leaves the filesystem as it
was. -/
theorem removeFile_eq_of_fresh (l : FS) (p : String) (h : ∀ e ∈ l, e.1 ≠ p) :
    removeFile l p = l := by
  unfold removeFile
  refine List.filter_eq_self.mpr ?_
  intro e he
  simp [h e he]

/-- Removing a name drops the entry carrying it. -/
theorem removeFile_cons_self (l : FS) (p c : String) :
    removeFile ((p, c) :: l) p = removeFile l p := by
  simp [removeFile]

/-- Removing a name keeps entries with other names. -/
theorem removeFile_cons_ne (l : FS) (p q c : String) (h : q ≠ p) :
    removeFile ((q, c) :: l) p = (q, c) :: removeFile l p := by
  simp [removeFile, h]

/-- Reading a file finds the entry carrying its name. -/
theorem readFile_cons_self (l : FS) (p c : String) :
    readFile ((p, c) :: l) p = .ok c := by
  unfold readFile
  rw [List.find?_cons_of_pos _ (by simp)]

/-- The entry lookup of `appendFile` finds the entry carrying the name. -/
theorem find?_key_cons_self (l : FS) (p c : String) :
    List.find? (fun e => e.1 == p) ((p, c) :: l) = some (p, c) :=
  List.find?_cons_of_pos _ (by simp)

/-- A file whose entry is present exists. -/
theorem hasFile_cons_self (l : FS) (p c : String) :
    hasFile ((p, c) :: l) p = true := by
  simp [hasFile]

/-- Existence of a file ignores entries with other names. -/
theorem hasFile_cons_ne (l : FS) (p q c : String) (h : q ≠ p) :
    hasFile ((q, c) :: l) p = hasFile l p := by
  simp [hasFile, h]

end file_operations

/-- C4: `demo_file_operations` deletes, before returning, both temporary
files it creates (the fresh `base ++ ".txt"` and the derived
`base ++ ".json"`), so the files existing after the call are exactly the
files existing before it. -/
theorem demo_file_operations_preserves_fs (fs : file_operations.FS) (base : String)
    (htmp : ∀ e ∈ fs, e.1 ≠ base ++ ".txt")
    (hjson : ∀ e ∈ fs, e.1 ≠ base ++ ".json") :
    file_operations.demo_file_operations fs base = .ok fs := by
  have hne : base ++ ".json" ≠ base ++ ".txt" := by
    intro h
    have hd := congrArg String.data h
    simp only [String.data_append] at hd
    exact absurd (List.append_cancel_left hd) (by decide)
  have hne2 : base ++ ".txt" ≠ base ++ ".json" := fun h => hne h.symm
  have hwr : file_operations.writeFile fs (base ++ ".txt")
        ("Hello, World!\nThis is a test file.\n")
      = (base ++ ".txt", "Hello, World!\nThis is a test file.\n") :: fs := by
    unfold file_operations.writeFile
    rw [file_operations.removeFile_eq_of_fresh fs _ htmp]
  have hbody : file_operations.demoTryBody
      ((base ++ ".txt", "Hello, World!\nThis is a test file.\n") :: fs)
      (base ++ ".txt") (base ++ ".json") = (.ok fs, fs) := by
    unfold file_operations.demoTryBody
    rw [file_operations.readFile_cons_self]
    dsimp only
    rw [show file_operations.appendFile
          ((base ++ ".txt", "Hello, World!\nThis is a test file.\n") :: fs)
          (base ++ ".txt") ("Additional line.\n")
        = (base ++ ".txt",
            "Hello, World!\nThis is a test file.\n" ++ "Additional line.\n") :: fs by
      unfold file_operations.appendFile
      rw [file_operations.find?_key_cons_self]
      unfold file_operations.writeFile
      rw [file_operations.removeFile_cons_self,
        file_operations.removeFile_eq_of_fresh fs _ htmp]]
    rw [file_operations.readFile_cons_self]
    dsimp only
    unfold file_operations.writeFile
    rw [file_operations.removeFile_cons_ne _ _ _ _ hne2,
      file_operations.removeFile_eq_of_fresh fs _ hjson,
      file_operations.readFile_cons_self]
    dsimp only
    unfold file_operations.unlinkFile
    rw [file_operations.hasFile_cons_ne _ _ _ _ hne,
      file_operations.hasFile_cons_self, if_pos rfl]
    dsimp only
    rw [file_operations.removeFile_cons_ne _ _ _ _ hne,
      file_operations.removeFile_cons_self,
      file_operations.removeFile_eq_of_fresh fs _ htmp]
    rw [file_operations.hasFile_cons_self, if_pos rfl]
    dsimp only
    rw [file_operations.removeFile_cons_self,
      file_operations.removeFile_eq_of_fresh fs _ hjson]
  unfold file_operations.demo_file_operations
  dsimp only
  rw [hwr, hbody]

/-- C4 witness: on a filesystem holding one unrelated file and the fresh
basename `"base"`, `demo_file_operations` returns with the filesystem
exactly as it was. -/
theorem demo_file_operations_preserves_fs_witness :
    file_operations.demo_file_operations [("a", "x")] ("base") = .ok [("a", "x")] :=
  demo_file_operations_preserves_fs [("a", "x")] ("base") (by decide) (by decide)

end PyLearning
